import Mathlib

/-!
Verification of the procedural path/window engine of the `anim` repository.

The development shallowly embeds, from the TypeScript sources:
* `PathRenderer` (both copies present in the source: the "helix" variant and
  the "rounded-arc" variant): curve function, elevation function and the
  `createDottedPath` window refresh with its modulo spawn rules;
* `InputHandler` (wheel / keyboard / touch handlers with the snapping guard);
* the animation-scheduler-absent branches of `SceneManager.updateBackgroundForAgent`,
  `InteractionManager.stopHoverAnimation` and `useSmoothScroll.scrollTo`.

JavaScript numbers are modelled as real numbers, row indices as integers.
-/

noncomputable section

open Real

/-- Screen width derived from camera FOV 75 and camera distance 25,
as computed in `PathRenderer.createDottedPath` / `calculateRoundedCurve`:
`2 * Math.tan((fov * PI / 180) / 2) * cameraDistance`. -/
def screenWidth : ℝ := 2 * Real.tan ((75 * Real.pi / 180) / 2) * 25

/-- Quintic smoothstep from `PathRenderer.smoothStep`:
`t * t * t * (t * (t * 6 - 15) + 10)`. -/
def smoothStep (t : ℝ) : ℝ := t * t * t * (t * (t * 6 - 15) + 10)

/-- Eased window ramp used by the helix variant: `min(1, rowIndex / 10)`
passed through `smoothStep`. -/
def easedProgressAt (r : ℤ) : ℝ := smoothStep (min 1 ((r : ℝ) / 10))

/-- Combined helix terms of the helix-variant `calculateRoundedCurve`:
primary cosine at the helix radius plus the 2x sine and 3x cosine harmonics. -/
def helixCombined (r : ℤ) : ℝ :=
  Real.cos ((r : ℝ) * 0.1) * (screenWidth * 0.25) +
    Real.sin ((r : ℝ) * 0.1 * 2) * (screenWidth * 0.05) +
    Real.cos ((r : ℝ) * 0.1 * 3) * (screenWidth * 0.02)

/-- Organic perturbation of the helix-variant `calculateRoundedCurve`:
`sin(r * 0.015) * (screenWidth * 0.01) + cos(r * 0.025) * (screenWidth * 0.005)`. -/
def organicVariationHelix (r : ℤ) : ℝ :=
  Real.sin ((r : ℝ) * 0.015) * (screenWidth * 0.01) +
    Real.cos ((r : ℝ) * 0.025) * (screenWidth * 0.005)

/-- Lateral curve offset of the helix variant (`PathRenderer.calculateRoundedCurve`,
second copy of the file): helix radius `screenWidth * 0.25`, speed `0.1`,
two harmonic waves, unconditional organic variation, eased ramp over the
first 10 rows multiplying the helix sum only. -/
def calculateRoundedCurve (r : ℤ) : ℝ :=
  let helixRadius := screenWidth * 0.25
  let helixSpeed : ℝ := 0.1
  let angle := (r : ℝ) * helixSpeed
  let xOffset := Real.cos angle * helixRadius
  let secondaryWave := Real.sin (angle * 2) * (screenWidth * 0.05)
  let tertiaryWave := Real.cos (angle * 3) * (screenWidth * 0.02)
  let helixOffset := xOffset + secondaryWave + tertiaryWave
  let organicVariation := Real.sin ((r : ℝ) * 0.015) * (screenWidth * 0.01) +
    Real.cos ((r : ℝ) * 0.025) * (screenWidth * 0.005)
  let progress := min 1 ((r : ℝ) / 10)
  let easedProgress := smoothStep progress
  helixOffset * easedProgress + organicVariation

/-- Elevation of the helix variant (`PathRenderer.calculateHelixElevation`):
amplitude 3 sine at speed 0.15, a secondary cosine at twice the angle with
amplitude `3 * 0.3`, an organic term `sin(r * 0.02) * 0.5`, the whole sum
eased by the 10-row ramp, plus base height `0.01`. -/
def calculateHelixElevation (r : ℤ) : ℝ :=
  let elevationAmplitude : ℝ := 3
  let elevationSpeed : ℝ := 0.15
  let elevationAngle := (r : ℝ) * elevationSpeed
  let mainElevation := Real.sin elevationAngle * elevationAmplitude
  let secondaryElevation := Real.cos (elevationAngle * 2) * (elevationAmplitude * 0.3)
  let organicVariation := Real.sin ((r : ℝ) * 0.02) * 0.5
  let progress := min 1 ((r : ℝ) / 10)
  let easedProgress := smoothStep progress
  let baseHeight : ℝ := 0.01
  baseHeight + (mainElevation + secondaryElevation + organicVariation) * easedProgress

/-- Lateral curve offset of the rounded-arc variant
(`PathRenderer.calculateRoundedCurve`, first copy of the file): straight for
rows 0-1, circular arc for rows 2-40, a 20-row transition zone, then an
alternating left/right pattern per 80-row section with clamping. -/
def calculateRoundedCurveArc (r : ℤ) : ℝ :=
  if r ≤ 1 then 0
  else if 2 ≤ r ∧ r ≤ 40 then
    let curveStartRow : ℝ := 2
    let totalCurveRows : ℝ := 40 - 2 + 1
    let curveProgress := ((r : ℝ) - curveStartRow) / (totalCurveRows - 1)
    let circleAngle := curveProgress * (Real.pi / 2)
    let circleRadius := screenWidth * 0.8
    let circleX := Real.sin circleAngle * circleRadius
    let maxOffset := screenWidth * 0.35
    let curveOffset := circleX / circleRadius * maxOffset
    let easedProgress := smoothStep curveProgress
    let smoothCurveOffset := curveOffset * easedProgress
    let secondaryRadius := screenWidth * 0.15
    let secondaryAngle := curveProgress * Real.pi
    let secondaryOffset := Real.sin secondaryAngle * secondaryRadius * 0.2
    let finalOffset := smoothCurveOffset + secondaryOffset
    let organicVariation := Real.sin ((r : ℝ) * 0.02) * (screenWidth * 0.003) +
      Real.cos ((r : ℝ) * 0.015) * (screenWidth * 0.002)
    let progressiveMultiplier := 0.7 + curveProgress * 0.3
    finalOffset * progressiveMultiplier + organicVariation
  else
    let sectionSize : ℤ := 80
    let adjustedIndex := r - 41
    if adjustedIndex < 20 then
      let transitionProgress := (adjustedIndex : ℝ) / 20
      let smoothTransition := smoothStep transitionProgress
      let roundedEndOffset := screenWidth * 0.25
      let sectionNumber := adjustedIndex / sectionSize
      let positionInSection := adjustedIndex % sectionSize
      let progress := (positionInSection : ℝ) / ((sectionSize : ℝ) - 1)
      let isLeftToRight := sectionNumber % 2 = 0
      let curveRange := screenWidth * 0.2
      let alternatingOffset :=
        if isLeftToRight then -curveRange + 2 * curveRange * smoothStep progress
        else curveRange - 2 * curveRange * smoothStep progress
      roundedEndOffset + (alternatingOffset - roundedEndOffset) * smoothTransition
    else
      let sectionNumber := adjustedIndex / sectionSize
      let positionInSection := adjustedIndex % sectionSize
      let progress := (positionInSection : ℝ) / ((sectionSize : ℝ) - 1)
      let isLeftToRight := sectionNumber % 2 = 0
      let curvedProgress := smoothStep progress
      let curveRange := screenWidth * 0.2
      let xPosition0 :=
        if isLeftToRight then -curveRange + 2 * curveRange * curvedProgress
        else curveRange - 2 * curveRange * curvedProgress
      let additionalCurveAmount := screenWidth * 0.04
      let additionalCurve := Real.sin (progress * Real.pi) * additionalCurveAmount
      let xPosition1 :=
        if isLeftToRight then xPosition0 + additionalCurve else xPosition0 - additionalCurve
      let verticalInfluenceAmount := screenWidth * 0.02
      let verticalInfluence := Real.cos (progress * Real.pi * 2) * verticalInfluenceAmount
      let xPosition2 :=
        if isLeftToRight then xPosition1 + verticalInfluence else xPosition1 - verticalInfluence
      let organicVariation := Real.sin ((r : ℝ) * 0.015) * (screenWidth * 0.005) +
        Real.cos ((r : ℝ) * 0.035) * (screenWidth * 0.003)
      let maxOffset := screenWidth * 0.3
      let xPosition3 := max (-maxOffset) (min maxOffset xPosition2)
      xPosition3 + organicVariation

/-- The screen width constant is strictly positive: the tangent of the
half field of view `5 * pi / 24` lies strictly inside `(0, pi / 2)`. -/
theorem screenWidth_pos : 0 < screenWidth := by
  have hpi := Real.pi_pos
  have harg : (75 * Real.pi / 180) / 2 = 5 * Real.pi / 24 := by ring
  have h0 : 0 < 5 * Real.pi / 24 := by linarith
  have h1 : 5 * Real.pi / 24 < Real.pi / 2 := by linarith
  have ht : 0 < Real.tan ((75 * Real.pi / 180) / 2) := by
    rw [harg]
    exact Real.tan_pos_of_pos_of_lt_pi_div_two h0 h1
  unfold screenWidth
  nlinarith

/-- C7: in the helix curve variant the quintic-smoothstep ramp multiplies only
the combined helix terms (primary cosine plus 2x and 3x harmonics) and not the
organic perturbation; consequently at rowIndex 0 the lateral offset equals the
organic perturbation alone, which is nonzero (`screenWidth * 0.005`), so the
path is not perfectly straight at row 0. -/
theorem helix_ease_multiplies_helix_terms_only :
    (∀ r : ℤ, calculateRoundedCurve r = helixCombined r * easedProgressAt r +
      organicVariationHelix r) ∧
    calculateRoundedCurve 0 = organicVariationHelix 0 ∧
    calculateRoundedCurve 0 ≠ 0 := by
  refine ⟨fun r => rfl, ?_, ?_⟩
  · show helixCombined 0 * easedProgressAt 0 + organicVariationHelix 0 = organicVariationHelix 0
    have h0 : easedProgressAt 0 = 0 := by
      unfold easedProgressAt smoothStep
      norm_num
    rw [h0]
    ring
  · have h : calculateRoundedCurve 0 = screenWidth * 0.005 := by
      show helixCombined 0 * easedProgressAt 0 + organicVariationHelix 0 = screenWidth * 0.005
      have h0 : easedProgressAt 0 = 0 := by
        unfold easedProgressAt smoothStep
        norm_num
      unfold organicVariationHelix
      rw [h0]
      norm_num
    rw [h]
    have := screenWidth_pos
    positivity

/-- The quintic smoothstep vanishes at 0. -/
theorem smoothStep_zero : smoothStep 0 = 0 := by
  unfold smoothStep
  ring

/-- The quintic smoothstep equals 1 at 1. -/
theorem smoothStep_one : smoothStep 1 = 1 := by
  unfold smoothStep
  norm_num

/-- The quintic smoothstep is nonnegative on nonnegative inputs. -/
theorem smoothStep_nonneg {t : ℝ} (h : 0 ≤ t) : 0 ≤ smoothStep t := by
  unfold smoothStep
  nlinarith [sq_nonneg (4 * t - 5), mul_nonneg (mul_nonneg h h) h]

/-- The quintic smoothstep is at most 1 on `[0, 1]`. -/
theorem smoothStep_le_one {t : ℝ} (h0 : 0 ≤ t) (h1 : t ≤ 1) : smoothStep t ≤ 1 := by
  unfold smoothStep
  have ha : 0 ≤ (1 - t) ^ 3 := pow_nonneg (by linarith) 3
  have hb : (0:ℝ) ≤ 6 * t ^ 2 + 3 * t + 1 := by positivity
  nlinarith [mul_nonneg ha hb]

/-- C6 counterexample: at rowIndex 31 the helix elevation formula is strictly
negative (about -3.6), so the path dips below the ground plane `y = 0` there:
the base height `0.01` does not dominate the wave amplitudes `3 + 0.9 + 0.5`. -/
theorem calculateHelixElevation_neg_at_31 : calculateHelixElevation 31 < 0 := by
  have e31 : calculateHelixElevation 31 =
      0.01 + (Real.sin (31 * 0.15) * 3 + Real.cos (31 * 0.15 * 2) * (3 * 0.3) +
        Real.sin (31 * 0.02) * 0.5) * 1 := by
    simp only [calculateHelixElevation]
    have hc : ((31:ℤ) : ℝ) = 31 := by norm_num
    rw [hc]
    have hmin : min (1:ℝ) (31 / 10) = 1 := by norm_num
    rw [hmin, smoothStep_one]
  have hπ1 : 3.141592 < Real.pi := Real.pi_gt_d6
  have hπ2 : Real.pi < 3.141593 := Real.pi_lt_d6
  have hid : Real.cos ((31:ℝ) * 0.15 - 3 * Real.pi / 2) = - Real.sin (31 * 0.15) := by
    have h2 : (31:ℝ) * 0.15 - 3 * Real.pi / 2 = (31 * 0.15 + Real.pi / 2) - 2 * Real.pi := by
      ring
    rw [h2, Real.cos_sub_two_pi, Real.cos_add_pi_div_two]
  have hb := Real.one_sub_sq_div_two_le_cos (x := (31:ℝ) * 0.15 - 3 * Real.pi / 2)
  have hyl : (-0.0624:ℝ) ≤ 31 * 0.15 - 3 * Real.pi / 2 := by nlinarith
  have hyu : (31:ℝ) * 0.15 - 3 * Real.pi / 2 ≤ -0.06 := by nlinarith
  have hsq : ((31:ℝ) * 0.15 - 3 * Real.pi / 2) ^ 2 ≤ 0.0624 ^ 2 := by
    nlinarith [mul_nonneg (sub_nonneg.2 hyl) (by linarith : (0:ℝ) ≤ -(31 * 0.15 - 3 * Real.pi / 2))]
  have hs : Real.sin ((31:ℝ) * 0.15) ≤ -0.99 := by nlinarith [hb, hid, hsq]
  have h2 : Real.cos ((31:ℝ) * 0.15 * 2) ≤ 1 := Real.cos_le_one _
  have h3 : Real.sin ((31:ℝ) * 0.02) ≤ 1 := Real.sin_le_one _
  rw [e31]
  nlinarith [hs, h2, h3]

/-- C6 amended: the helix elevation equals the base height `0.01` at rowIndex 0
(strictly above the ground plane), and for every rowIndex at least 0 it is
bounded below by `0.01 - 4.4 = -4.39` (base height minus the summed wave
amplitudes `3 + 0.9 + 0.5`); it is not strictly positive at every row. -/
theorem calculateHelixElevation_base_and_lower_bound :
    calculateHelixElevation 0 = 0.01 ∧
    ∀ r : ℤ, 0 ≤ r → -4.39 ≤ calculateHelixElevation r := by
  constructor
  · simp only [calculateHelixElevation]
    have hc : ((0:ℤ) : ℝ) = 0 := by norm_num
    rw [hc]
    have hmin : min (1:ℝ) (0 / 10) = 0 := by norm_num
    rw [hmin, smoothStep_zero]
    ring
  · intro r hr
    simp only [calculateHelixElevation]
    have hrr : (0:ℝ) ≤ (r : ℝ) := by exact_mod_cast hr
    have hE0 : 0 ≤ smoothStep (min 1 ((r : ℝ) / 10)) := by
      apply smoothStep_nonneg
      apply le_min (by norm_num)
      positivity
    have hE1 : smoothStep (min 1 ((r : ℝ) / 10)) ≤ 1 := by
      apply smoothStep_le_one
      · apply le_min (by norm_num)
        positivity
      · exact min_le_left _ _
    have hS : -4.4 ≤ Real.sin ((r : ℝ) * 0.15) * 3 +
        Real.cos ((r : ℝ) * 0.15 * 2) * (3 * 0.3) + Real.sin ((r : ℝ) * 0.02) * 0.5 := by
      have s1 := Real.neg_one_le_sin ((r : ℝ) * 0.15)
      have s2 := Real.neg_one_le_cos ((r : ℝ) * 0.15 * 2)
      have s3 := Real.neg_one_le_sin ((r : ℝ) * 0.02)
      nlinarith
    set S := Real.sin ((r : ℝ) * 0.15) * 3 +
        Real.cos ((r : ℝ) * 0.15 * 2) * (3 * 0.3) + Real.sin ((r : ℝ) * 0.02) * 0.5 with hSdef
    set E := smoothStep (min 1 ((r : ℝ) / 10)) with hEdef
    have hprod : -4.4 ≤ S * E := by
      rcases le_or_lt 0 S with hSpos | hSneg
      · nlinarith
      · nlinarith [mul_nonneg (by linarith : (0:ℝ) ≤ -S) (by linarith : (0:ℝ) ≤ 1 - E)]
    nlinarith [hprod]

/-- Kinds of scene objects produced by `createDottedPath` (both variants). -/
inductive ObjKind where
  | dot
  | milestoneText
  | agentBox
  | variousShape
  | breakableCube
  | decorativeShape
deriving DecidableEq

/-- One generated scene object: its kind, its row index, its column index
(dot column 0-5; for the breakable-cube pair the side, -1 left / 1 right;
0 otherwise) and its position transform `(x, y, z)`. -/
structure Descriptor where
  kind : ObjKind
  rowIndex : ℤ
  columnIndex : ℤ
  transform : ℝ × ℝ × ℝ

/-- The 60 loop offsets `i = -30, ..., 29` of `createDottedPath`
(`visibleRange = 30`, loop `for (let i = -visibleRange; i < visibleRange; i++)`). -/
def windowOffsets : List ℤ := (List.range 60).map (fun (k : ℕ) => (k : ℤ) - 30)

/-- Dots of one row in the helix variant: 6 dots per row at
`xPos = (col / 5) * screenWidth - screenWidth / 2 + curveOffset`,
`yPos = elevation`, `zPos = -(i * 8)`. -/
def rowDots (fl i : ℤ) : List Descriptor :=
  let row := fl + i
  let curveOffset := calculateRoundedCurve row
  let elevation := calculateHelixElevation row
  (List.range 6).map (fun (col : ℕ) =>
    { kind := ObjKind.dot, rowIndex := row, columnIndex := (col : ℤ),
      transform := ((col : ℝ) / 5 * screenWidth - screenWidth / 2 + curveOffset,
        elevation, -((i : ℝ) * 8)) })

/-- Card-group objects of one row in the helix variant, in source order:
agent box (`row > 0 && row % 60 == 0`), various shape
(`row > 0 && row % 15 == 0 && row % 60 != 0`), breakable-cube pair
(`row > 0 && row % 50 == 0`), decorative shape
(`row > 0 && row % 8 == 0 && row % 15 != 0`). The x/z placement of these
objects is produced by `ShapeManager` (not part of the provided sources) and
is Modelled from the spec: each object sits at the row's lateral curve offset
and the row's distance along the path, the breakable pair one on each side
(side recorded in `columnIndex`); `createDottedPath` itself overwrites the y
coordinate with the helix elevation. -/
def rowCards (fl i : ℤ) : List Descriptor :=
  let row := fl + i
  let curveOffset := calculateRoundedCurve row
  let elevation := calculateHelixElevation row
  let distance := (i : ℝ) * 8
  (if 0 < row ∧ row % 60 = 0 then
    [{ kind := ObjKind.agentBox, rowIndex := row, columnIndex := 0,
       transform := (curveOffset, elevation, -distance) }] else [])
  ++ (if 0 < row ∧ row % 15 = 0 ∧ ¬ row % 60 = 0 then
    [{ kind := ObjKind.variousShape, rowIndex := row, columnIndex := 0,
       transform := (curveOffset, elevation, -distance) }] else [])
  ++ (if 0 < row ∧ row % 50 = 0 then
    [{ kind := ObjKind.breakableCube, rowIndex := row, columnIndex := -1,
       transform := (curveOffset, elevation, -distance) },
     { kind := ObjKind.breakableCube, rowIndex := row, columnIndex := 1,
       transform := (curveOffset, elevation, -distance) }] else [])
  ++ (if 0 < row ∧ row % 8 = 0 ∧ ¬ row % 15 = 0 then
    [{ kind := ObjKind.decorativeShape, rowIndex := row, columnIndex := 0,
       transform := (curveOffset, elevation, -distance) }] else [])

/-- Text-group objects of one row in the helix variant: the milestone text
(`row > 0 && row % 40 == 0`), with y overwritten by the helix elevation. -/
def rowTexts (fl i : ℤ) : List Descriptor :=
  let row := fl + i
  let curveOffset := calculateRoundedCurve row
  let elevation := calculateHelixElevation row
  let distance := (i : ℝ) * 8
  if 0 < row ∧ row % 40 = 0 then
    [{ kind := ObjKind.milestoneText, rowIndex := row, columnIndex := 0,
       transform := (curveOffset, elevation, -distance) }] else []

/-- Dots of one row in the rounded-arc variant: same 6 columns, but
`yPos = 0.01` (no elevation) and the arc curve offset. -/
def rowDotsArc (fl i : ℤ) : List Descriptor :=
  let row := fl + i
  let curveOffset := calculateRoundedCurveArc row
  (List.range 6).map (fun (col : ℕ) =>
    { kind := ObjKind.dot, rowIndex := row, columnIndex := (col : ℤ),
      transform := ((col : ℝ) / 5 * screenWidth - screenWidth / 2 + curveOffset,
        0.01, -((i : ℝ) * 8)) })

/-- Card-group objects of one row in the rounded-arc variant, in source order:
agent box, various shape, decorative shape — this variant has no
breakable-cube rule and applies no elevation. `ShapeManager` placement
Modelled from the spec as in `rowCards`. -/
def rowCardsArc (fl i : ℤ) : List Descriptor :=
  let row := fl + i
  let curveOffset := calculateRoundedCurveArc row
  let distance := (i : ℝ) * 8
  (if 0 < row ∧ row % 60 = 0 then
    [{ kind := ObjKind.agentBox, rowIndex := row, columnIndex := 0,
       transform := (curveOffset, 0, -distance) }] else [])
  ++ (if 0 < row ∧ row % 15 = 0 ∧ ¬ row % 60 = 0 then
    [{ kind := ObjKind.variousShape, rowIndex := row, columnIndex := 0,
       transform := (curveOffset, 0, -distance) }] else [])
  ++ (if 0 < row ∧ row % 8 = 0 ∧ ¬ row % 15 = 0 then
    [{ kind := ObjKind.decorativeShape, rowIndex := row, columnIndex := 0,
       transform := (curveOffset, 0, -distance) }] else [])

/-- Text-group objects of one row in the rounded-arc variant. -/
def rowTextsArc (fl i : ℤ) : List Descriptor :=
  let row := fl + i
  let curveOffset := calculateRoundedCurveArc row
  let distance := (i : ℝ) * 8
  if 0 < row ∧ row % 40 = 0 then
    [{ kind := ObjKind.milestoneText, rowIndex := row, columnIndex := 0,
       transform := (curveOffset, 0, -distance) }] else []

/-- The three named container groups owned by the renderer. -/
structure Groups where
  dots : List Descriptor
  cards : List Descriptor
  texts : List Descriptor

/-- Window generation over the 60 loop offsets; rows with
`globalRowIndex < 0` are skipped (`continue`). -/
def genWindow (rowFn : ℤ → ℤ → List Descriptor) (fl : ℤ) : List Descriptor :=
  windowOffsets.flatMap (fun i => if fl + i < 0 then [] else rowFn fl i)

/-- The helix-variant `createDottedPath`: if any group ref is missing the call
is a no-op (modelled by `refsReady`); otherwise all groups are cleared and
every row of `[floor(p) - 30, floor(p) + 30)` is regenerated from the pure
row formulas (the cleared previous contents `s` are discarded). -/
def createDottedPath (refsReady : Bool) (s : Groups) (p : ℝ) : Groups :=
  if refsReady then
    { dots := genWindow rowDots ⌊p⌋,
      cards := genWindow rowCards ⌊p⌋,
      texts := genWindow rowTexts ⌊p⌋ }
  else s

/-- The rounded-arc-variant `createDottedPath`. -/
def createDottedPathArc (refsReady : Bool) (s : Groups) (p : ℝ) : Groups :=
  if refsReady then
    { dots := genWindow rowDotsArc ⌊p⌋,
      cards := genWindow rowCardsArc ⌊p⌋,
      texts := genWindow rowTextsArc ⌊p⌋ }
  else s

/-- All descriptors of the three groups together. -/
def allDescriptors (g : Groups) : List Descriptor := g.dots ++ g.cards ++ g.texts

/-- The loop offsets are pairwise distinct. -/
theorem windowOffsets_nodup : windowOffsets.Nodup := by
  apply List.Nodup.map
  · intro a b h
    dsimp only at h
    omega
  · exact List.nodup_range 60

/-- Characterization of the loop offsets. -/
theorem mem_windowOffsets {i : ℤ} : i ∈ windowOffsets ↔ -30 ≤ i ∧ i < 30 := by
  simp only [windowOffsets, List.mem_map, List.mem_range]
  constructor
  · rintro ⟨k, hk, rfl⟩
    omega
  · intro h
    exact ⟨(i + 30).toNat, by omega, by omega⟩

/-- Counting over a flatMap whose contribution is supported on a single
index of a duplicate-free index list. -/
theorem countP_flatMap_single {β : Type} (l : List ℤ) (f : ℤ → List β) (q : β → Bool)
    (i₀ : ℤ) (hnd : l.Nodup) (hz : ∀ i ∈ l, i ≠ i₀ → (f i).countP q = 0) :
    (l.flatMap f).countP q = if i₀ ∈ l then (f i₀).countP q else 0 := by
  induction l with
  | nil => simp
  | cons a t ih =>
    rw [List.flatMap_cons, List.countP_append]
    have hnd2 := (List.nodup_cons.1 hnd).2
    have hz2 : ∀ i ∈ t, i ≠ i₀ → (f i).countP q = 0 :=
      fun i hi => hz i (List.mem_cons_of_mem _ hi)
    rw [ih hnd2 hz2]
    rcases eq_or_ne a i₀ with rfl | hne
    · have hnotmem : a ∉ t := (List.nodup_cons.1 hnd).1
      simp [hnotmem]
    · rw [hz a (List.mem_cons_self a t) hne]
      simp [List.mem_cons, Ne.symm hne]

/-- Members of the generated window come from a row of `[-30, 30)` whose
global row index is nonnegative. -/
theorem mem_genWindow {rowFn : ℤ → ℤ → List Descriptor} {fl : ℤ} {d : Descriptor}
    (hd : d ∈ genWindow rowFn fl) :
    ∃ i, -30 ≤ i ∧ i < 30 ∧ 0 ≤ fl + i ∧ d ∈ rowFn fl i := by
  simp only [genWindow, List.mem_flatMap] at hd
  obtain ⟨i, hi, hdi⟩ := hd
  rw [mem_windowOffsets] at hi
  by_cases h : fl + i < 0
  · simp [h] at hdi
  · exact ⟨i, hi.1, hi.2, by omega, by simpa [h] using hdi⟩

/-- Counting a row-`r` predicate over a generated window reduces to counting
it in the single row `r`, provided each row only produces descriptors
carrying its own row index. -/
theorem countP_genWindow (rowFn : ℤ → ℤ → List Descriptor) (fl : ℤ) (q : Descriptor → Bool)
    (r : ℤ) (hrow : ∀ i d, d ∈ rowFn fl i → d.rowIndex = fl + i)
    (hq : ∀ d, q d = true → d.rowIndex = r) :
    (genWindow rowFn fl).countP q =
      if -30 ≤ r - fl ∧ r - fl < 30 then
        (if r < 0 then 0 else (rowFn fl (r - fl)).countP q) else 0 := by
  unfold genWindow
  have hz : ∀ i ∈ windowOffsets, i ≠ r - fl →
      ((fun i => if fl + i < 0 then [] else rowFn fl i) i).countP q = 0 := by
    intro i hi hne
    by_cases hneg : fl + i < 0
    · simp [hneg]
    · simp only [if_neg hneg]
      apply List.countP_eq_zero.2
      intro d hd hqd
      exact hne (by have h1 := hrow i d hd; have h2 := hq d hqd; omega)
  rw [countP_flatMap_single windowOffsets _ q (r - fl) windowOffsets_nodup hz]
  simp only [mem_windowOffsets]
  by_cases hw : -30 ≤ r - fl ∧ r - fl < 30
  · rw [if_pos hw, if_pos hw]
    by_cases hrneg : r < 0
    · rw [if_pos (by omega : fl + (r - fl) < 0), if_pos hrneg]
      simp
    · rw [if_neg (by omega : ¬ fl + (r - fl) < 0), if_neg hrneg]
  · rw [if_neg hw, if_neg hw]

/-- A window count vanishes when no row can produce a matching descriptor. -/
theorem genWindow_countP_eq_zero (rowFn : ℤ → ℤ → List Descriptor) (fl : ℤ)
    (q : Descriptor → Bool) (h : ∀ i d, d ∈ rowFn fl i → ¬ q d = true) :
    (genWindow rowFn fl).countP q = 0 := by
  apply List.countP_eq_zero.2
  intro d hd
  obtain ⟨i, _, _, _, hdi⟩ := mem_genWindow hd
  exact h i d hdi

/-- Helper: membership in a condit-guarded list. -/
theorem mem_of_mem_ite_nil {c : Prop} [Decidable c] {L : List Descriptor} {d : Descriptor}
    (h : d ∈ if c then L else []) : d ∈ L := by
  split at h
  · exact h
  · simp at h

/-- Every dot descriptor of a row carries that row's index. -/
theorem rowDots_rowIndex (fl i : ℤ) : ∀ d ∈ rowDots fl i, d.rowIndex = fl + i := by
  intro d hd
  simp only [rowDots, List.mem_map, List.mem_range] at hd
  obtain ⟨col, _, rfl⟩ := hd
  rfl

/-- Every card descriptor of a row carries that row's index. -/
theorem rowCards_rowIndex (fl i : ℤ) : ∀ d ∈ rowCards fl i, d.rowIndex = fl + i := by
  intro d hd
  simp only [rowCards, List.mem_append] at hd
  rcases hd with ((h | h) | h) | h <;>
    · have hm := mem_of_mem_ite_nil h
      simp only [List.mem_cons, List.mem_singleton, List.not_mem_nil, or_false] at hm
      rcases hm with rfl | rfl <;> rfl

/-- Every text descriptor of a row carries that row's index. -/
theorem rowTexts_rowIndex (fl i : ℤ) : ∀ d ∈ rowTexts fl i, d.rowIndex = fl + i := by
  intro d hd
  simp only [rowTexts] at hd
  have hm := mem_of_mem_ite_nil hd
  simp only [List.mem_singleton] at hm
  subst hm
  rfl

/-- Arc variant: every dot descriptor of a row carries that row's index. -/
theorem rowDotsArc_rowIndex (fl i : ℤ) : ∀ d ∈ rowDotsArc fl i, d.rowIndex = fl + i := by
  intro d hd
  simp only [rowDotsArc, List.mem_map, List.mem_range] at hd
  obtain ⟨col, _, rfl⟩ := hd
  rfl

/-- Arc variant: every card descriptor of a row carries that row's index. -/
theorem rowCardsArc_rowIndex (fl i : ℤ) : ∀ d ∈ rowCardsArc fl i, d.rowIndex = fl + i := by
  intro d hd
  simp only [rowCardsArc, List.mem_append] at hd
  rcases hd with (h | h) | h <;>
    · have hm := mem_of_mem_ite_nil h
      simp only [List.mem_singleton] at hm
      subst hm
      rfl

/-- Arc variant: every text descriptor of a row carries that row's index. -/
theorem rowTextsArc_rowIndex (fl i : ℤ) : ∀ d ∈ rowTextsArc fl i, d.rowIndex = fl + i := by
  intro d hd
  simp only [rowTextsArc] at hd
  have hm := mem_of_mem_ite_nil hd
  simp only [List.mem_singleton] at hm
  subst hm
  rfl

/-- Dots rows only produce dots. -/
theorem rowDots_kind (fl i : ℤ) : ∀ d ∈ rowDots fl i, d.kind = ObjKind.dot := by
  intro d hd
  simp only [rowDots, List.mem_map, List.mem_range] at hd
  obtain ⟨col, _, rfl⟩ := hd
  rfl

/-- Arc variant: dots rows only produce dots. -/
theorem rowDotsArc_kind (fl i : ℤ) : ∀ d ∈ rowDotsArc fl i, d.kind = ObjKind.dot := by
  intro d hd
  simp only [rowDotsArc, List.mem_map, List.mem_range] at hd
  obtain ⟨col, _, rfl⟩ := hd
  rfl

/-- Text rows only produce milestone texts. -/
theorem rowTexts_kind (fl i : ℤ) : ∀ d ∈ rowTexts fl i, d.kind = ObjKind.milestoneText := by
  intro d hd
  simp only [rowTexts] at hd
  have hm := mem_of_mem_ite_nil hd
  simp only [List.mem_singleton] at hm
  subst hm
  rfl

/-- Arc variant: text rows only produce milestone texts. -/
theorem rowTextsArc_kind (fl i : ℤ) :
    ∀ d ∈ rowTextsArc fl i, d.kind = ObjKind.milestoneText := by
  intro d hd
  simp only [rowTextsArc] at hd
  have hm := mem_of_mem_ite_nil hd
  simp only [List.mem_singleton] at hm
  subst hm
  rfl

/-- Card rows of the helix variant produce agent boxes, various shapes,
breakable cubes or decorative shapes only. -/
theorem rowCards_kind (fl i : ℤ) : ∀ d ∈ rowCards fl i,
    d.kind = ObjKind.agentBox ∨ d.kind = ObjKind.variousShape ∨
    d.kind = ObjKind.breakableCube ∨ d.kind = ObjKind.decorativeShape := by
  intro d hd
  simp only [rowCards, List.mem_append] at hd
  rcases hd with ((h | h) | h) | h <;>
    · have hm := mem_of_mem_ite_nil h
      simp only [List.mem_cons, List.mem_singleton, List.not_mem_nil, or_false] at hm
      rcases hm with rfl | rfl <;> simp

/-- Card rows of the rounded-arc variant produce agent boxes, various shapes
or decorative shapes only — in particular never breakable cubes. -/
theorem rowCardsArc_kind (fl i : ℤ) : ∀ d ∈ rowCardsArc fl i,
    d.kind = ObjKind.agentBox ∨ d.kind = ObjKind.variousShape ∨
    d.kind = ObjKind.decorativeShape := by
  intro d hd
  simp only [rowCardsArc, List.mem_append] at hd
  rcases hd with (h | h) | h <;>
    · have hm := mem_of_mem_ite_nil h
      simp only [List.mem_singleton] at hm
      subst hm
      simp

/-- Predicate selecting descriptors of a given kind at a given row. -/
def isKindRow (k : ObjKind) (r : ℤ) (d : Descriptor) : Bool :=
  decide (d.kind = k ∧ d.rowIndex = r)

/-- Predicate selecting descriptors of a given kind at a given row and column. -/
def isKindRowCol (k : ObjKind) (r c : ℤ) (d : Descriptor) : Bool :=
  decide (d.kind = k ∧ d.rowIndex = r ∧ d.columnIndex = c)

/-- Number of descriptors of kind `k` at row `r` across all three groups. -/
def countKindRow (g : Groups) (k : ObjKind) (r : ℤ) : ℕ :=
  (allDescriptors g).countP (isKindRow k r)

/-- Number of descriptors of kind `k` at row `r` and column `c` across all groups. -/
def countKindRowCol (g : Groups) (k : ObjKind) (r c : ℤ) : ℕ :=
  (allDescriptors g).countP (isKindRowCol k r c)

theorem isKindRow_rowIndex {k : ObjKind} {r : ℤ} {d : Descriptor}
    (h : isKindRow k r d = true) : d.rowIndex = r := by
  simp only [isKindRow, decide_eq_true_eq] at h
  exact h.2

theorem isKindRow_kind {k : ObjKind} {r : ℤ} {d : Descriptor}
    (h : isKindRow k r d = true) : d.kind = k := by
  simp only [isKindRow, decide_eq_true_eq] at h
  exact h.1

theorem isKindRowCol_rowIndex {k : ObjKind} {r c : ℤ} {d : Descriptor}
    (h : isKindRowCol k r c d = true) : d.rowIndex = r := by
  simp only [isKindRowCol, decide_eq_true_eq] at h
  exact h.2.1

theorem isKindRowCol_kind {k : ObjKind} {r c : ℤ} {d : Descriptor}
    (h : isKindRowCol k r c d = true) : d.kind = k := by
  simp only [isKindRowCol, decide_eq_true_eq] at h
  exact h.1

/-- A window count vanishes when the predicate demands a kind that the row
function never produces. -/
theorem genWindow_countP_zero_kind (rowFn : ℤ → ℤ → List Descriptor) (fl : ℤ)
    (q : Descriptor → Bool) (k : ObjKind) (hq : ∀ d, q d = true → d.kind = k)
    (hkind : ∀ i d, d ∈ rowFn fl i → ¬ d.kind = k) :
    (genWindow rowFn fl).countP q = 0 := by
  apply genWindow_countP_eq_zero
  intro i d hd hqd
  exact hkind i d hd (hq d hqd)

/-- Dots windows contain no descriptor of a non-dot kind. -/
theorem countP_genDots_zero (fl : ℤ) (q : Descriptor → Bool) (k : ObjKind)
    (hq : ∀ d, q d = true → d.kind = k) (hk : k ≠ ObjKind.dot) :
    (genWindow rowDots fl).countP q = 0 := by
  apply genWindow_countP_zero_kind rowDots fl q k hq
  intro i d hd hdk
  exact hk (hdk ▸ rowDots_kind fl i d hd)

/-- Arc dots windows contain no descriptor of a non-dot kind. -/
theorem countP_genDotsArc_zero (fl : ℤ) (q : Descriptor → Bool) (k : ObjKind)
    (hq : ∀ d, q d = true → d.kind = k) (hk : k ≠ ObjKind.dot) :
    (genWindow rowDotsArc fl).countP q = 0 := by
  apply genWindow_countP_zero_kind rowDotsArc fl q k hq
  intro i d hd hdk
  exact hk (hdk ▸ rowDotsArc_kind fl i d hd)

/-- Text windows contain no descriptor of a non-milestone kind. -/
theorem countP_genTexts_zero (fl : ℤ) (q : Descriptor → Bool) (k : ObjKind)
    (hq : ∀ d, q d = true → d.kind = k) (hk : k ≠ ObjKind.milestoneText) :
    (genWindow rowTexts fl).countP q = 0 := by
  apply genWindow_countP_zero_kind rowTexts fl q k hq
  intro i d hd hdk
  exact hk (hdk ▸ rowTexts_kind fl i d hd)

/-- Arc text windows contain no descriptor of a non-milestone kind. -/
theorem countP_genTextsArc_zero (fl : ℤ) (q : Descriptor → Bool) (k : ObjKind)
    (hq : ∀ d, q d = true → d.kind = k) (hk : k ≠ ObjKind.milestoneText) :
    (genWindow rowTextsArc fl).countP q = 0 := by
  apply genWindow_countP_zero_kind rowTextsArc fl q k hq
  intro i d hd hdk
  exact hk (hdk ▸ rowTextsArc_kind fl i d hd)

/-- Helix card windows contain no milestone texts and no dots. -/
theorem countP_genCards_zero (fl : ℤ) (q : Descriptor → Bool) (k : ObjKind)
    (hq : ∀ d, q d = true → d.kind = k)
    (hk1 : k = ObjKind.milestoneText ∨ k = ObjKind.dot) :
    (genWindow rowCards fl).countP q = 0 := by
  apply genWindow_countP_zero_kind rowCards fl q k hq
  intro i d hd hdk
  rcases rowCards_kind fl i d hd with h | h | h | h <;> rcases hk1 with rfl | rfl <;>
    simp_all

/-- Arc card windows contain no milestone texts, no dots and no breakable cubes. -/
theorem countP_genCardsArc_zero (fl : ℤ) (q : Descriptor → Bool) (k : ObjKind)
    (hq : ∀ d, q d = true → d.kind = k)
    (hk1 : k = ObjKind.milestoneText ∨ k = ObjKind.dot ∨ k = ObjKind.breakableCube) :
    (genWindow rowCardsArc fl).countP q = 0 := by
  apply genWindow_countP_zero_kind rowCardsArc fl q k hq
  intro i d hd hdk
  rcases rowCardsArc_kind fl i d hd with h | h | h <;> rcases hk1 with rfl | rfl | rfl <;>
    simp_all

/-- Milestone count over the text window: one when `r > 0` and `r % 40 == 0`. -/
theorem countP_genTexts_milestone (fl r : ℤ) (hr : 0 ≤ r) (hw1 : -30 ≤ r - fl)
    (hw2 : r - fl < 30) :
    (genWindow rowTexts fl).countP (isKindRow ObjKind.milestoneText r) =
      if 0 < r ∧ r % 40 = 0 then 1 else 0 := by
  rw [countP_genWindow rowTexts fl _ r (rowTexts_rowIndex fl) (fun d h => isKindRow_rowIndex h)]
  rw [if_pos ⟨hw1, hw2⟩, if_neg (by omega : ¬ r < 0)]
  simp only [rowTexts]
  have hfl : fl + (r - fl) = r := by ring
  rw [hfl]
  split_ifs with h
  · simp [isKindRow]
  · simp

/-- Agent-box count over the helix card window: one when `r > 0` and `r % 60 == 0`. -/
theorem countP_genCards_agent (fl r : ℤ) (hr : 0 ≤ r) (hw1 : -30 ≤ r - fl)
    (hw2 : r - fl < 30) :
    (genWindow rowCards fl).countP (isKindRow ObjKind.agentBox r) =
      if 0 < r ∧ r % 60 = 0 then 1 else 0 := by
  rw [countP_genWindow rowCards fl _ r (rowCards_rowIndex fl) (fun d h => isKindRow_rowIndex h)]
  rw [if_pos ⟨hw1, hw2⟩, if_neg (by omega : ¬ r < 0)]
  simp only [rowCards]
  have hfl : fl + (r - fl) = r := by ring
  rw [hfl]
  rw [List.countP_append, List.countP_append, List.countP_append]
  split_ifs <;> simp [isKindRow, List.countP_cons]

/-- Various-shape count over the helix card window: one when `r > 0`,
`r % 15 == 0` and `r % 60 != 0`. -/
theorem countP_genCards_various (fl r : ℤ) (hr : 0 ≤ r) (hw1 : -30 ≤ r - fl)
    (hw2 : r - fl < 30) :
    (genWindow rowCards fl).countP (isKindRow ObjKind.variousShape r) =
      if 0 < r ∧ r % 15 = 0 ∧ ¬ r % 60 = 0 then 1 else 0 := by
  rw [countP_genWindow rowCards fl _ r (rowCards_rowIndex fl) (fun d h => isKindRow_rowIndex h)]
  rw [if_pos ⟨hw1, hw2⟩, if_neg (by omega : ¬ r < 0)]
  simp only [rowCards]
  have hfl : fl + (r - fl) = r := by ring
  rw [hfl]
  rw [List.countP_append, List.countP_append, List.countP_append]
  split_ifs <;> simp [isKindRow, List.countP_cons]

/-- Breakable-cube count over the helix card window: a pair when `r > 0`
and `r % 50 == 0`. -/
theorem countP_genCards_breakable (fl r : ℤ) (hr : 0 ≤ r) (hw1 : -30 ≤ r - fl)
    (hw2 : r - fl < 30) :
    (genWindow rowCards fl).countP (isKindRow ObjKind.breakableCube r) =
      if 0 < r ∧ r % 50 = 0 then 2 else 0 := by
  rw [countP_genWindow rowCards fl _ r (rowCards_rowIndex fl) (fun d h => isKindRow_rowIndex h)]
  rw [if_pos ⟨hw1, hw2⟩, if_neg (by omega : ¬ r < 0)]
  simp only [rowCards]
  have hfl : fl + (r - fl) = r := by ring
  rw [hfl]
  rw [List.countP_append, List.countP_append, List.countP_append]
  split_ifs <;> simp [isKindRow, List.countP_cons]

/-- Left breakable cube (side -1) over the helix card window. -/
theorem countP_genCards_breakable_left (fl r : ℤ) (hr : 0 ≤ r) (hw1 : -30 ≤ r - fl)
    (hw2 : r - fl < 30) :
    (genWindow rowCards fl).countP (isKindRowCol ObjKind.breakableCube r (-1)) =
      if 0 < r ∧ r % 50 = 0 then 1 else 0 := by
  rw [countP_genWindow rowCards fl _ r (rowCards_rowIndex fl)
    (fun d h => isKindRowCol_rowIndex h)]
  rw [if_pos ⟨hw1, hw2⟩, if_neg (by omega : ¬ r < 0)]
  simp only [rowCards]
  have hfl : fl + (r - fl) = r := by ring
  rw [hfl]
  rw [List.countP_append, List.countP_append, List.countP_append]
  split_ifs <;> simp [isKindRowCol, List.countP_cons]

/-- Right breakable cube (side 1) over the helix card window. -/
theorem countP_genCards_breakable_right (fl r : ℤ) (hr : 0 ≤ r) (hw1 : -30 ≤ r - fl)
    (hw2 : r - fl < 30) :
    (genWindow rowCards fl).countP (isKindRowCol ObjKind.breakableCube r 1) =
      if 0 < r ∧ r % 50 = 0 then 1 else 0 := by
  rw [countP_genWindow rowCards fl _ r (rowCards_rowIndex fl)
    (fun d h => isKindRowCol_rowIndex h)]
  rw [if_pos ⟨hw1, hw2⟩, if_neg (by omega : ¬ r < 0)]
  simp only [rowCards]
  have hfl : fl + (r - fl) = r := by ring
  rw [hfl]
  rw [List.countP_append, List.countP_append, List.countP_append]
  split_ifs <;> simp [isKindRowCol, List.countP_cons]

/-- Decorative-shape count over the helix card window: one when `r > 0`,
`r % 8 == 0` and `r % 15 != 0`. -/
theorem countP_genCards_decorative (fl r : ℤ) (hr : 0 ≤ r) (hw1 : -30 ≤ r - fl)
    (hw2 : r - fl < 30) :
    (genWindow rowCards fl).countP (isKindRow ObjKind.decorativeShape r) =
      if 0 < r ∧ r % 8 = 0 ∧ ¬ r % 15 = 0 then 1 else 0 := by
  rw [countP_genWindow rowCards fl _ r (rowCards_rowIndex fl) (fun d h => isKindRow_rowIndex h)]
  rw [if_pos ⟨hw1, hw2⟩, if_neg (by omega : ¬ r < 0)]
  simp only [rowCards]
  have hfl : fl + (r - fl) = r := by ring
  rw [hfl]
  rw [List.countP_append, List.countP_append, List.countP_append]
  split_ifs <;> simp [isKindRow, List.countP_cons]

/-- Splitting a full-refresh count over the three groups (helix variant). -/
theorem countP_all_create (s : Groups) (p : ℝ) (q : Descriptor → Bool) :
    (allDescriptors (createDottedPath true s p)).countP q =
      (genWindow rowDots ⌊p⌋).countP q + (genWindow rowCards ⌊p⌋).countP q +
      (genWindow rowTexts ⌊p⌋).countP q := by
  simp [createDottedPath, allDescriptors, List.countP_append]
  omega

/-- Splitting a full-refresh count over the three groups (arc variant). -/
theorem countP_all_createArc (s : Groups) (p : ℝ) (q : Descriptor → Bool) :
    (allDescriptors (createDottedPathArc true s p)).countP q =
      (genWindow rowDotsArc ⌊p⌋).countP q + (genWindow rowCardsArc ⌊p⌋).countP q +
      (genWindow rowTextsArc ⌊p⌋).countP q := by
  simp [createDottedPathArc, allDescriptors, List.countP_append]
  omega

/-- Milestone count of a full helix refresh. -/
theorem countKindRow_milestone (s : Groups) (p : ℝ) (r : ℤ) (hr : 0 ≤ r)
    (hw1 : ⌊p⌋ - 30 ≤ r) (hw2 : r < ⌊p⌋ + 30) :
    countKindRow (createDottedPath true s p) ObjKind.milestoneText r =
      if 0 < r ∧ r % 40 = 0 then 1 else 0 := by
  unfold countKindRow
  rw [countP_all_create]
  rw [countP_genDots_zero ⌊p⌋ _ ObjKind.milestoneText (fun d h => isKindRow_kind h)
    (by simp)]
  rw [countP_genCards_zero ⌊p⌋ _ ObjKind.milestoneText (fun d h => isKindRow_kind h)
    (Or.inl rfl)]
  rw [countP_genTexts_milestone ⌊p⌋ r hr (by omega) (by omega)]
  omega

/-- Agent-box count of a full helix refresh. -/
theorem countKindRow_agent (s : Groups) (p : ℝ) (r : ℤ) (hr : 0 ≤ r)
    (hw1 : ⌊p⌋ - 30 ≤ r) (hw2 : r < ⌊p⌋ + 30) :
    countKindRow (createDottedPath true s p) ObjKind.agentBox r =
      if 0 < r ∧ r % 60 = 0 then 1 else 0 := by
  unfold countKindRow
  rw [countP_all_create]
  rw [countP_genDots_zero ⌊p⌋ _ ObjKind.agentBox (fun d h => isKindRow_kind h) (by simp)]
  rw [countP_genTexts_zero ⌊p⌋ _ ObjKind.agentBox (fun d h => isKindRow_kind h) (by simp)]
  rw [countP_genCards_agent ⌊p⌋ r hr (by omega) (by omega)]
  omega

/-- Various-shape count of a full helix refresh. -/
theorem countKindRow_various (s : Groups) (p : ℝ) (r : ℤ) (hr : 0 ≤ r)
    (hw1 : ⌊p⌋ - 30 ≤ r) (hw2 : r < ⌊p⌋ + 30) :
    countKindRow (createDottedPath true s p) ObjKind.variousShape r =
      if 0 < r ∧ r % 15 = 0 ∧ ¬ r % 60 = 0 then 1 else 0 := by
  unfold countKindRow
  rw [countP_all_create]
  rw [countP_genDots_zero ⌊p⌋ _ ObjKind.variousShape (fun d h => isKindRow_kind h) (by simp)]
  rw [countP_genTexts_zero ⌊p⌋ _ ObjKind.variousShape (fun d h => isKindRow_kind h) (by simp)]
  rw [countP_genCards_various ⌊p⌋ r hr (by omega) (by omega)]
  omega

/-- Breakable-cube count of a full helix refresh. -/
theorem countKindRow_breakable (s : Groups) (p : ℝ) (r : ℤ) (hr : 0 ≤ r)
    (hw1 : ⌊p⌋ - 30 ≤ r) (hw2 : r < ⌊p⌋ + 30) :
    countKindRow (createDottedPath true s p) ObjKind.breakableCube r =
      if 0 < r ∧ r % 50 = 0 then 2 else 0 := by
  unfold countKindRow
  rw [countP_all_create]
  rw [countP_genDots_zero ⌊p⌋ _ ObjKind.breakableCube (fun d h => isKindRow_kind h) (by simp)]
  rw [countP_genTexts_zero ⌊p⌋ _ ObjKind.breakableCube (fun d h => isKindRow_kind h) (by simp)]
  rw [countP_genCards_breakable ⌊p⌋ r hr (by omega) (by omega)]
  omega

/-- Left-side breakable-cube count of a full helix refresh. -/
theorem countKindRowCol_breakable_left (s : Groups) (p : ℝ) (r : ℤ) (hr : 0 ≤ r)
    (hw1 : ⌊p⌋ - 30 ≤ r) (hw2 : r < ⌊p⌋ + 30) :
    countKindRowCol (createDottedPath true s p) ObjKind.breakableCube r (-1) =
      if 0 < r ∧ r % 50 = 0 then 1 else 0 := by
  unfold countKindRowCol
  rw [countP_all_create]
  rw [countP_genDots_zero ⌊p⌋ _ ObjKind.breakableCube (fun d h => isKindRowCol_kind h)
    (by simp)]
  rw [countP_genTexts_zero ⌊p⌋ _ ObjKind.breakableCube (fun d h => isKindRowCol_kind h)
    (by simp)]
  rw [countP_genCards_breakable_left ⌊p⌋ r hr (by omega) (by omega)]
  omega

/-- Right-side breakable-cube count of a full helix refresh. -/
theorem countKindRowCol_breakable_right (s : Groups) (p : ℝ) (r : ℤ) (hr : 0 ≤ r)
    (hw1 : ⌊p⌋ - 30 ≤ r) (hw2 : r < ⌊p⌋ + 30) :
    countKindRowCol (createDottedPath true s p) ObjKind.breakableCube r 1 =
      if 0 < r ∧ r % 50 = 0 then 1 else 0 := by
  unfold countKindRowCol
  rw [countP_all_create]
  rw [countP_genDots_zero ⌊p⌋ _ ObjKind.breakableCube (fun d h => isKindRowCol_kind h)
    (by simp)]
  rw [countP_genTexts_zero ⌊p⌋ _ ObjKind.breakableCube (fun d h => isKindRowCol_kind h)
    (by simp)]
  rw [countP_genCards_breakable_right ⌊p⌋ r hr (by omega) (by omega)]
  omega

/-- Decorative-shape count of a full helix refresh. -/
theorem countKindRow_decorative (s : Groups) (p : ℝ) (r : ℤ) (hr : 0 ≤ r)
    (hw1 : ⌊p⌋ - 30 ≤ r) (hw2 : r < ⌊p⌋ + 30) :
    countKindRow (createDottedPath true s p) ObjKind.decorativeShape r =
      if 0 < r ∧ r % 8 = 0 ∧ ¬ r % 15 = 0 then 1 else 0 := by
  unfold countKindRow
  rw [countP_all_create]
  rw [countP_genDots_zero ⌊p⌋ _ ObjKind.decorativeShape (fun d h => isKindRow_kind h)
    (by simp)]
  rw [countP_genTexts_zero ⌊p⌋ _ ObjKind.decorativeShape (fun d h => isKindRow_kind h)
    (by simp)]
  rw [countP_genCards_decorative ⌊p⌋ r hr (by omega) (by omega)]
  omega

/-- Breakable-cube count of a full rounded-arc refresh: always zero, at every
row — the arc variant of `createDottedPath` has no breakable-cube rule. -/
theorem countKindRow_breakableArc (s : Groups) (p : ℝ) (r : ℤ) :
    countKindRow (createDottedPathArc true s p) ObjKind.breakableCube r = 0 := by
  unfold countKindRow
  rw [countP_all_createArc]
  rw [countP_genDotsArc_zero ⌊p⌋ _ ObjKind.breakableCube (fun d h => isKindRow_kind h)
    (by simp)]
  rw [countP_genTextsArc_zero ⌊p⌋ _ ObjKind.breakableCube (fun d h => isKindRow_kind h)
    (by simp)]
  rw [countP_genCardsArc_zero ⌊p⌋ _ ObjKind.breakableCube (fun d h => isKindRow_kind h)
    (Or.inr (Or.inr rfl))]

/-- C1: the helix-variant window rebuild is idempotent: refreshing twice at the
same position yields exactly the same descriptor tuples (kind, rowIndex,
columnIndex, transform); the refresh discards all previous group contents
(so the result is independent of the prior state), and every regenerated
descriptor lies in the row window `[floor(p) - 30, floor(p) + 30)`. -/
theorem createDottedPath_idempotent :
    (∀ (ready : Bool) (s : Groups) (p : ℝ),
      createDottedPath ready (createDottedPath ready s p) p = createDottedPath ready s p) ∧
    (∀ (s t : Groups) (p : ℝ), createDottedPath true s p = createDottedPath true t p) ∧
    (∀ (s : Groups) (p : ℝ),
      (allDescriptors (createDottedPath true s p)).all
        (fun d => decide (⌊p⌋ - 30 ≤ d.rowIndex ∧ d.rowIndex < ⌊p⌋ + 30)) = true) := by
  refine ⟨?_, ?_, ?_⟩
  · intro ready s p
    cases ready <;> rfl
  · intro s t p
    rfl
  · intro s p
    rw [List.all_eq_true]
    intro d hd
    simp only [decide_eq_true_eq]
    simp only [createDottedPath, if_true, allDescriptors, List.mem_append] at hd
    rcases hd with (h | h) | h
    · obtain ⟨i, h1, h2, h3, hdi⟩ := mem_genWindow h
      have h4 := rowDots_rowIndex ⌊p⌋ i d hdi
      omega
    · obtain ⟨i, h1, h2, h3, hdi⟩ := mem_genWindow h
      have h4 := rowCards_rowIndex ⌊p⌋ i d hdi
      omega
    · obtain ⟨i, h1, h2, h3, hdi⟩ := mem_genWindow h
      have h4 := rowTexts_rowIndex ⌊p⌋ i d hdi
      omega

/-- C4 amended: for every rowIndex strictly greater than 0 that lies in the
refreshed window and satisfies `rowIndex % 40 == 0`, the refresh produces
exactly one milestone marker for that row; rowIndex 0, although it satisfies
the predicate and lies in the window whenever position < 30, produces none,
because the code additionally requires `rowIndex > 0`. -/
theorem milestone_rule_amended (s : Groups) (p : ℝ) (r : ℤ)
    (hw1 : ⌊p⌋ - 30 ≤ r) (hw2 : r < ⌊p⌋ + 30) (hpos : 0 < r) (hmod : r % 40 = 0) :
    countKindRow (createDottedPath true s p) ObjKind.milestoneText r = 1 := by
  rw [countKindRow_milestone s p r (by omega) hw1 hw2, if_pos ⟨hpos, hmod⟩]

/-- Witness for `milestone_rule_amended` at position 30 and row 40. -/
theorem milestone_rule_amended_witness :
    countKindRow (createDottedPath true ⟨[], [], []⟩ 30) ObjKind.milestoneText 40 = 1 :=
  milestone_rule_amended ⟨[], [], []⟩ 30 40 (by norm_num) (by norm_num) (by norm_num)
    (by decide)

/-- C4 counterexample: at position 0, rowIndex 0 is in the window and satisfies
`rowIndex % 40 == 0`, yet the refresh produces no milestone marker for row 0. -/
theorem milestone_rule_fails_at_row0 :
    (0:ℤ) % 40 = 0 ∧ ⌊(0:ℝ)⌋ - 30 ≤ (0:ℤ) ∧ (0:ℤ) < ⌊(0:ℝ)⌋ + 30 ∧
    countKindRow (createDottedPath true ⟨[], [], []⟩ 0) ObjKind.milestoneText 0 = 0 := by
  refine ⟨by decide, by norm_num, by norm_num, ?_⟩
  rw [countKindRow_milestone ⟨[], [], []⟩ 0 0 (by norm_num) (by norm_num) (by norm_num)]
  norm_num

/-- C2 amended: a row with positive index divisible by 60 inside the window
yields exactly one agent box and no assorted decorative shape (the 15-rule is
suppressed by the `% 60 != 0` exclusion), and if the index is additionally
divisible by 40 (such as row 120) the same refresh also yields exactly one
milestone marker simultaneously; rowIndex 0, divisible by 60 and in the
window whenever position < 30, yields no agent box because the code
additionally requires `rowIndex > 0`. -/
theorem agent_rule_amended (s : Groups) (p : ℝ) (r : ℤ)
    (hw1 : ⌊p⌋ - 30 ≤ r) (hw2 : r < ⌊p⌋ + 30) (hpos : 0 < r) (hmod : r % 60 = 0) :
    countKindRow (createDottedPath true s p) ObjKind.agentBox r = 1 ∧
    countKindRow (createDottedPath true s p) ObjKind.variousShape r = 0 ∧
    (r % 40 = 0 → countKindRow (createDottedPath true s p) ObjKind.milestoneText r = 1) := by
  refine ⟨?_, ?_, ?_⟩
  · rw [countKindRow_agent s p r (by omega) hw1 hw2, if_pos ⟨hpos, hmod⟩]
  · rw [countKindRow_various s p r (by omega) hw1 hw2, if_neg]
    rintro ⟨h1, h2, h3⟩
    exact h3 hmod
  · intro h40
    rw [countKindRow_milestone s p r (by omega) hw1 hw2, if_pos ⟨hpos, h40⟩]

/-- Witness for `agent_rule_amended` at position 120 and row 120 (divisible by
both 40 and 60: agent box and milestone marker appear simultaneously). -/
theorem agent_rule_amended_witness :
    countKindRow (createDottedPath true ⟨[], [], []⟩ 120) ObjKind.agentBox 120 = 1 ∧
    countKindRow (createDottedPath true ⟨[], [], []⟩ 120) ObjKind.variousShape 120 = 0 ∧
    countKindRow (createDottedPath true ⟨[], [], []⟩ 120) ObjKind.milestoneText 120 = 1 := by
  have h := agent_rule_amended ⟨[], [], []⟩ 120 120 (by norm_num) (by norm_num)
    (by norm_num) (by decide)
  exact ⟨h.1, h.2.1, h.2.2 (by decide)⟩

/-- C2 counterexample: at position 0, rowIndex 0 is in the window and is
divisible by 60, yet the refresh produces no agent box for row 0. -/
theorem agent_rule_fails_at_row0 :
    (0:ℤ) % 60 = 0 ∧ ⌊(0:ℝ)⌋ - 30 ≤ (0:ℤ) ∧ (0:ℤ) < ⌊(0:ℝ)⌋ + 30 ∧
    countKindRow (createDottedPath true ⟨[], [], []⟩ 0) ObjKind.agentBox 0 = 0 := by
  refine ⟨by decide, by norm_num, by norm_num, ?_⟩
  rw [countKindRow_agent ⟨[], [], []⟩ 0 0 (by norm_num) (by norm_num) (by norm_num)]
  norm_num

/-- C8 amended: for rowIndex 16 inside the refreshed window, the spawner
produces no assorted decorative shape (16 % 15 != 0 fails the 15-rule) but it
does produce exactly one small decorative shape, because 16 % 8 == 0 and
16 % 15 != 0 satisfy the 8-rule. -/
theorem row16_shapes_amended (s : Groups) (p : ℝ)
    (hw1 : ⌊p⌋ - 30 ≤ (16:ℤ)) (hw2 : (16:ℤ) < ⌊p⌋ + 30) :
    countKindRow (createDottedPath true s p) ObjKind.variousShape 16 = 0 ∧
    countKindRow (createDottedPath true s p) ObjKind.decorativeShape 16 = 1 := by
  constructor
  · rw [countKindRow_various s p 16 (by norm_num) hw1 hw2, if_neg]
    rintro ⟨h1, h2, h3⟩
    exact absurd h2 (by decide)
  · rw [countKindRow_decorative s p 16 (by norm_num) hw1 hw2,
      if_pos ⟨by norm_num, by decide, by decide⟩]

/-- Witness for `row16_shapes_amended` at position 10. -/
theorem row16_shapes_amended_witness :
    countKindRow (createDottedPath true ⟨[], [], []⟩ 10) ObjKind.variousShape 16 = 0 ∧
    countKindRow (createDottedPath true ⟨[], [], []⟩ 10) ObjKind.decorativeShape 16 = 1 :=
  row16_shapes_amended ⟨[], [], []⟩ 10 (by norm_num) (by norm_num)

/-- C8 counterexample: at position 0 rowIndex 16 is in the window, and the
refresh does create a small decorative shape for it (count 1, not 0), contrary
to the claim that neither of the 15/8 shape rules fires at row 16. -/
theorem row16_decorative_exists :
    ⌊(0:ℝ)⌋ - 30 ≤ (16:ℤ) ∧ (16:ℤ) < ⌊(0:ℝ)⌋ + 30 ∧
    countKindRow (createDottedPath true ⟨[], [], []⟩ 0) ObjKind.decorativeShape 16 = 1 := by
  refine ⟨by norm_num, by norm_num, ?_⟩
  rw [countKindRow_decorative ⟨[], [], []⟩ 0 16 (by norm_num) (by norm_num) (by norm_num),
    if_pos ⟨by norm_num, by decide, by decide⟩]

/-- C5 amended: for every positive rowIndex in the window divisible by 50, the
helix-variant refresh produces exactly one pair of breakable objects, one on
each side (columnIndex -1 and 1), independently of all other spawn rules; the
rounded-arc-variant refresh, however, produces no breakable objects at all —
its `createDottedPath` has no `% 50` rule. -/
theorem breakable_rule_amended (s : Groups) (p : ℝ) (r : ℤ)
    (hw1 : ⌊p⌋ - 30 ≤ r) (hw2 : r < ⌊p⌋ + 30) (hpos : 0 < r) (hmod : r % 50 = 0) :
    countKindRow (createDottedPath true s p) ObjKind.breakableCube r = 2 ∧
    countKindRowCol (createDottedPath true s p) ObjKind.breakableCube r (-1) = 1 ∧
    countKindRowCol (createDottedPath true s p) ObjKind.breakableCube r 1 = 1 ∧
    countKindRow (createDottedPathArc true s p) ObjKind.breakableCube r = 0 := by
  refine ⟨?_, ?_, ?_, countKindRow_breakableArc s p r⟩
  · rw [countKindRow_breakable s p r (by omega) hw1 hw2, if_pos ⟨hpos, hmod⟩]
  · rw [countKindRowCol_breakable_left s p r (by omega) hw1 hw2, if_pos ⟨hpos, hmod⟩]
  · rw [countKindRowCol_breakable_right s p r (by omega) hw1 hw2, if_pos ⟨hpos, hmod⟩]

/-- Witness for `breakable_rule_amended` at position 50 and row 50. -/
theorem breakable_rule_amended_witness :
    countKindRow (createDottedPath true ⟨[], [], []⟩ 50) ObjKind.breakableCube 50 = 2 ∧
    countKindRow (createDottedPathArc true ⟨[], [], []⟩ 50) ObjKind.breakableCube 50 = 0 := by
  have h := breakable_rule_amended ⟨[], [], []⟩ 50 50 (by norm_num) (by norm_num)
    (by norm_num) (by decide)
  exact ⟨h.1, h.2.2.2⟩

/-- C5 counterexample: at position 50 in the rounded-arc variant build, rowIndex
50 is positive, in the window and divisible by 50, yet the refresh produces no
breakable objects — the claim fails for that curve-variant build. -/
theorem breakable_rule_fails_in_arc_variant :
    (50:ℤ) % 50 = 0 ∧ (0:ℤ) < 50 ∧ ⌊(50:ℝ)⌋ - 30 ≤ (50:ℤ) ∧ (50:ℤ) < ⌊(50:ℝ)⌋ + 30 ∧
    countKindRow (createDottedPathArc true ⟨[], [], []⟩ 50) ObjKind.breakableCube 50 = 0 :=
  ⟨by decide, by decide, by norm_num, by norm_num,
    countKindRow_breakableArc ⟨[], [], []⟩ 50 50⟩

/-- Mutable state of `InputHandler`: the shared snapping flag and the two
touch refs (`touchStartYRef`, `touchDeltaRef`). -/
structure InputState where
  isSnapping : Bool
  touchStartY : ℝ
  touchDelta : ℝ

/-- Wheel handler (`InputHandler.handleScroll`): outside pinch-zoom
(`ctrlKey`/`metaKey`), if a snap is in progress the event is dropped,
otherwise a directional intent `sign(deltaY)` is emitted to `snapToAgent`.
The result is the emitted intent, `none` when `snapToAgent` is not called. -/
def handleScroll (s : InputState) (deltaY : ℝ) (ctrlKey metaKey : Bool) : Option ℤ :=
  if !ctrlKey && !metaKey then
    if s.isSnapping then none
    else some (if deltaY > 0 then 1 else -1)
  else none

/-- Keyboard handler (`InputHandler.handleKeyDown`): ignored while snapping;
ArrowUp/w/W emit -1, ArrowDown/s/S emit 1, other keys nothing. -/
def handleKeyDown (s : InputState) (key : String) : Option ℤ :=
  if s.isSnapping then none
  else if key = "ArrowUp" ∨ key = "w" ∨ key = "W" then some (-1)
  else if key = "ArrowDown" ∨ key = "s" ∨ key = "S" then some 1
  else none

/-- Touch-start handler (`InputHandler.handleTouchStart`): a single-finger
touch records the start y and resets the accumulated delta. -/
def handleTouchStart (s : InputState) (touches : ℕ) (clientY : ℝ) : InputState :=
  if touches = 1 then { s with touchStartY := clientY, touchDelta := 0 } else s

/-- Touch-move handler (`InputHandler.handleTouchMove`): with a single finger
and no snap in progress, the accumulated delta becomes `startY - touchY`. -/
def handleTouchMove (s : InputState) (touches : ℕ) (touchY : ℝ) : InputState :=
  if touches = 1 ∧ s.isSnapping = false then
    { s with touchDelta := s.touchStartY - touchY }
  else s

/-- Touch-end handler (`InputHandler.handleTouchEnd`): emits a directional
intent `sign(delta)` when the accumulated delta magnitude exceeds 50 and no
snap is in progress; the accumulated delta is reset to 0 in every case. -/
def handleTouchEnd (s : InputState) : Option ℤ × InputState :=
  (if 50 < |s.touchDelta| ∧ s.isSnapping = false then
      some (if s.touchDelta > 0 then 1 else -1)
    else none,
   { s with touchDelta := 0 })

/-- The snap tween state owned by the navigation layer: target position and
tween start time. -/
structure SnapState where
  target : ℝ
  startTime : ℝ

/-- Dispatch of an emitted intent to `snapToAgent` (an arbitrary snap
function): when no intent was emitted the snap state is untouched. -/
def processIntent (snap : SnapState) (intent : Option ℤ)
    (snapFn : SnapState → ℤ → SnapState) : SnapState :=
  match intent with
  | none => snap
  | some d => snapFn snap d

/-- C3: while a snap is in progress (`isSnappingRef.current` true), every
directional intent — wheel scroll, key press, completed touch swipe — is
dropped before reaching `snapToAgent`, so whatever `snapToAgent` would do,
the active snap's target and start time are unchanged. -/
theorem snapping_debounces_all_intents (s : InputState) (h : s.isSnapping = true)
    (deltaY : ℝ) (ctrlKey metaKey : Bool) (key : String)
    (snap : SnapState) (snapFn : SnapState → ℤ → SnapState) :
    handleScroll s deltaY ctrlKey metaKey = none ∧
    handleKeyDown s key = none ∧
    (handleTouchEnd s).1 = none ∧
    processIntent snap (handleScroll s deltaY ctrlKey metaKey) snapFn = snap ∧
    processIntent snap (handleKeyDown s key) snapFn = snap ∧
    processIntent snap (handleTouchEnd s).1 snapFn = snap := by
  have h1 : handleScroll s deltaY ctrlKey metaKey = none := by
    simp [handleScroll, h]
  have h2 : handleKeyDown s key = none := by
    unfold handleKeyDown
    rw [h]
    rfl
  have h3 : (handleTouchEnd s).1 = none := by
    unfold handleTouchEnd
    rw [if_neg]
    rintro ⟨_, habs⟩
    rw [h] at habs
    exact absurd habs (by decide)
  exact ⟨h1, h2, h3, by rw [h1]; rfl, by rw [h2]; rfl, by rw [h3]; rfl⟩

/-- Witness for `snapping_debounces_all_intents`: while snapping, a wheel
event, a w-key press and a finished 60-pixel swipe all leave a pending snap
to 60 untouched. -/
theorem snapping_debounces_witness :
    handleScroll ⟨true, 0, 60⟩ 1 false false = none ∧
    handleKeyDown ⟨true, 0, 60⟩ "w" = none ∧
    (handleTouchEnd ⟨true, 0, 60⟩).1 = none ∧
    processIntent ⟨60, 0⟩ (handleScroll ⟨true, 0, 60⟩ 1 false false)
      (fun sn d => ⟨sn.target + (d : ℝ) * 60, 1⟩) = ⟨60, 0⟩ ∧
    processIntent ⟨60, 0⟩ (handleKeyDown ⟨true, 0, 60⟩ "w")
      (fun sn d => ⟨sn.target + (d : ℝ) * 60, 1⟩) = ⟨60, 0⟩ ∧
    processIntent ⟨60, 0⟩ (handleTouchEnd ⟨true, 0, 60⟩).1
      (fun sn d => ⟨sn.target + (d : ℝ) * 60, 1⟩) = ⟨60, 0⟩ :=
  snapping_debounces_all_intents ⟨true, 0, 60⟩ rfl 1 false false "w" ⟨60, 0⟩
    (fun sn d => ⟨sn.target + (d : ℝ) * 60, 1⟩)

/-- C10: a completed single-finger gesture triggers a snap exactly when the
accumulated vertical delta magnitude exceeds 50 pixels and no snap is in
progress; the direction is the sign of the accumulated delta (upward swipe,
positive delta, gives 1; downward gives -1), and the accumulated delta is
reset to 0 after every touch end. -/
theorem touch_end_threshold (s : InputState) :
    ((handleTouchEnd s).1 ≠ none ↔ 50 < |s.touchDelta| ∧ s.isSnapping = false) ∧
    ((handleTouchEnd s).2.touchDelta = 0) ∧
    (50 < s.touchDelta → s.isSnapping = false → (handleTouchEnd s).1 = some 1) ∧
    (s.touchDelta < -50 → s.isSnapping = false → (handleTouchEnd s).1 = some (-1)) := by
  refine ⟨?_, rfl, ?_, ?_⟩
  · unfold handleTouchEnd
    by_cases hcond : 50 < |s.touchDelta| ∧ s.isSnapping = false
    · rw [if_pos hcond]
      refine iff_of_true (fun hn => ?_) hcond
      simp at hn
    · rw [if_neg hcond]
      exact iff_of_false (fun hn => hn rfl) hcond
  · intro hpos hsnap
    unfold handleTouchEnd
    have habs : 50 < |s.touchDelta| := by
      rw [abs_of_pos (by linarith)]
      exact hpos
    show (if 50 < |s.touchDelta| ∧ s.isSnapping = false then
        some (if s.touchDelta > 0 then 1 else -1) else none) = some 1
    rw [if_pos ⟨habs, hsnap⟩, if_pos (by linarith)]
  · intro hneg hsnap
    unfold handleTouchEnd
    have habs : 50 < |s.touchDelta| := by
      rw [abs_of_neg (by linarith)]
      linarith
    show (if 50 < |s.touchDelta| ∧ s.isSnapping = false then
        some (if s.touchDelta > 0 then 1 else -1) else none) = some (-1)
    rw [if_pos ⟨habs, hsnap⟩, if_neg (by linarith)]

/-- Witness for `touch_end_threshold`: a 60-pixel upward swipe while idle
snaps forward and resets the delta; a finished 10-pixel swipe does not snap. -/
theorem touch_end_threshold_witness :
    (handleTouchEnd ⟨false, 0, 60⟩).1 = some 1 ∧
    (handleTouchEnd ⟨false, 0, 60⟩).2.touchDelta = 0 ∧
    (handleTouchEnd ⟨false, 0, (-60 : ℝ)⟩).1 = some (-1) ∧
    ¬ ((handleTouchEnd ⟨false, 0, 10⟩).1 ≠ none) := by
  refine ⟨(touch_end_threshold ⟨false, 0, 60⟩).2.2.1 ?_ rfl,
    (touch_end_threshold ⟨false, 0, 60⟩).2.1,
    (touch_end_threshold ⟨false, 0, (-60 : ℝ)⟩).2.2.2 ?_ rfl, ?_⟩
  · show (50:ℝ) < 60
    norm_num
  · show (-60:ℝ) < -50
    norm_num
  · intro hne
    have h := ((touch_end_threshold ⟨false, 0, 10⟩).1).1 hne
    have h10 : |(10:ℝ)| = 10 := by norm_num
    have := h.1
    rw [show (⟨false, 0, 10⟩ : InputState).touchDelta = (10:ℝ) from rfl, h10] at this
    norm_num at this

/-- State of `SceneManager`: whether `createScene` ran (`this.scene` non-null),
the stored gradient index, the palette entry the displayed background was
built from (`gradientColors[agentIndex % 15]`), and whether a cross-fade
tween is running. -/
structure SceneState where
  sceneReady : Bool
  currentGradientIndex : ℤ
  displayedGradient : ℤ
  transitionActive : Bool

/-- The synchronous part of `SceneManager.createBackgroundGradient`: rebuilds
the background from palette entry `agentIndex % 15` (the palette has 15
entries) and records `currentGradientIndex = agentIndex`. -/
def createBackgroundGradient (s : SceneState) (agentIndex : ℤ) : SceneState :=
  { s with displayedGradient := agentIndex % 15, currentGradientIndex := agentIndex }

/-- `SceneManager.updateBackgroundForAgent`: no-op when the scene is missing
or the index is unchanged; with the scheduler available a 1.2 s cross-fade
tween is started; without it the new gradient is applied instantly. -/
def updateBackgroundForAgent (gsapAvailable : Bool) (s : SceneState) (agentIndex : ℤ) :
    SceneState :=
  if s.sceneReady = false ∨ agentIndex = s.currentGradientIndex then s
  else if gsapAvailable then { s with transitionActive := true }
  else createBackgroundGradient s agentIndex

/-- The hover snapshot of `InteractionManager` (`AnimationData`): original
scale/position, the original color when one was recorded, and the hover flag. -/
structure HoverData where
  originalScale : ℝ × ℝ × ℝ
  originalPosition : ℝ × ℝ × ℝ
  originalColor : Option (ℝ × ℝ × ℝ)
  isHovered : Bool

/-- The mutable transform/color of a hovered scene object. -/
structure HoverObj where
  scale : ℝ × ℝ × ℝ
  position : ℝ × ℝ × ℝ
  color : ℝ × ℝ × ℝ

/-- `InteractionManager.stopHoverAnimation`: without a snapshot nothing
happens; otherwise the hover flag is cleared, and then — only if the
scheduler is available — revert tweens toward the snapshot are started
(modelled by their end state); without the scheduler the method returns at
`if (!gsap) return;` and the object is left untouched. -/
def stopHoverAnimation (gsapAvailable : Bool) (data : Option HoverData) (obj : HoverObj) :
    Option HoverData × HoverObj :=
  match data with
  | none => (none, obj)
  | some d =>
    if gsapAvailable = false then (some { d with isHovered := false }, obj)
    else
      (some { d with isHovered := false },
       { scale := d.originalScale, position := d.originalPosition,
         color := match d.originalColor with | some c => c | none => obj.color })

/-- State of `useSmoothScroll`: the position ref and the pending tween target. -/
structure ScrollState where
  position : ℝ
  tweenTarget : Option ℝ

/-- `useSmoothScroll.scrollTo`: returns immediately at `if (!window.gsap)
return;` when the scheduler is missing; otherwise kills any tween and starts
a new one toward the target. -/
def scrollTo (gsapAvailable : Bool) (s : ScrollState) (targetPosition : ℝ) : ScrollState :=
  if gsapAvailable = false then s
  else { position := s.position, tweenTarget := some targetPosition }

/-- C9 amended: when the animation scheduler is absent, only the background
transition has a synchronous fallback — `updateBackgroundForAgent` applies the
new gradient instantly; `stopHoverAnimation` merely clears the hover flag and
leaves the object's transform and color untouched, and `scrollTo` leaves the
whole scroll state (in particular the position) untouched — both are silent
no-ops rather than synchronous applications of the end state. -/
theorem scheduler_absent_behaviour (s : SceneState) (a : ℤ) (hready : s.sceneReady = true)
    (hne : ¬ a = s.currentGradientIndex) (d : HoverData) (obj : HoverObj)
    (sc : ScrollState) (t : ℝ) :
    (updateBackgroundForAgent false s a).displayedGradient = a % 15 ∧
    (updateBackgroundForAgent false s a).currentGradientIndex = a ∧
    (stopHoverAnimation false (some d) obj).2 = obj ∧
    (stopHoverAnimation false (some d) obj).1 = some { d with isHovered := false } ∧
    scrollTo false sc t = sc := by
  have hcond : ¬ (s.sceneReady = false ∨ a = s.currentGradientIndex) := by
    rintro (hc | hc)
    · rw [hready] at hc
      exact absurd hc (by decide)
    · exact hne hc
  refine ⟨?_, ?_, rfl, rfl, rfl⟩
  · unfold updateBackgroundForAgent
    rw [if_neg hcond]
    rfl
  · unfold updateBackgroundForAgent
    rw [if_neg hcond]
    rfl

/-- Witness for `scheduler_absent_behaviour` at a ready scene on gradient 0
switching to agent 1, a snapshot of scale (1,1,1) on an object scaled
(2,2,2), and a scroll state at position 0 asked to scroll to 60. -/
theorem scheduler_absent_behaviour_witness :
    (updateBackgroundForAgent false ⟨true, 0, 0, false⟩ 1).displayedGradient = 1 % 15 ∧
    (updateBackgroundForAgent false ⟨true, 0, 0, false⟩ 1).currentGradientIndex = 1 ∧
    (stopHoverAnimation false (some ⟨(1, 1, 1), (1, 1, 1), none, true⟩)
      ⟨(2, 2, 2), (3, 3, 3), (4, 4, 4)⟩).2 = ⟨(2, 2, 2), (3, 3, 3), (4, 4, 4)⟩ ∧
    (stopHoverAnimation false (some ⟨(1, 1, 1), (1, 1, 1), none, true⟩)
      ⟨(2, 2, 2), (3, 3, 3), (4, 4, 4)⟩).1 = some ⟨(1, 1, 1), (1, 1, 1), none, false⟩ ∧
    scrollTo false ⟨0, none⟩ 60 = ⟨0, none⟩ :=
  scheduler_absent_behaviour ⟨true, 0, 0, false⟩ 1 rfl (by decide)
    ⟨(1, 1, 1), (1, 1, 1), none, true⟩ ⟨(2, 2, 2), (3, 3, 3), (4, 4, 4)⟩ ⟨0, none⟩ 60

/-- C9 counterexample: with the scheduler absent, ending a hover on an object
scaled (2,2,2) whose snapshot scale is (1,1,1) leaves the scale at (2,2,2)
instead of restoring the snapshot, and a scroll request to 60 leaves the
position at 0 instead of setting it to its target — two of the three cited
operations are silent no-ops, contrary to the claim. -/
theorem scheduler_absent_not_applied_counterexample :
    (stopHoverAnimation false (some ⟨(1, 1, 1), (1, 1, 1), none, true⟩)
      ⟨(2, 2, 2), (3, 3, 3), (4, 4, 4)⟩).2.scale = (2, 2, 2) ∧
    ((2:ℝ), (2:ℝ), (2:ℝ)) ≠ ((1:ℝ), (1:ℝ), (1:ℝ)) ∧
    (scrollTo false ⟨0, none⟩ 60).position = 0 ∧ (0:ℝ) ≠ 60 := by
  refine ⟨rfl, ?_, rfl, by norm_num⟩
  intro hc
  have := congrArg Prod.fst hc
  norm_num at this

/-- Witness for `calculateHelixElevation_base_and_lower_bound` at rowIndex 5. -/
theorem calculateHelixElevation_bound_witness : -4.39 ≤ calculateHelixElevation 5 :=
  calculateHelixElevation_base_and_lower_bound.2 5 (by decide)
